import Mathlib

/-!
Verification development for the TalkyTalk streaming speech-signal pipeline.

The Python sources are shallowly embedded over exact arithmetic: Python
floats become `ℚ`, millisecond timestamps become `ℤ`, Python `None` becomes
`Option`, and a component body that may raise becomes an `Option`-valued
function. Audio frames are embedded at the feature level: the analyzers and
predictors consume a frame only through its derived scalar features
(`energy_db = 20·log10(rms + 1e-10)`, zero-crossing rate, rms, pitch
estimate), so a frame is represented by those values; every rational value
in range is realized by a concrete sample buffer, and the concrete inputs
used below are annotated with a realizing buffer.
-/

namespace TalkyTalk

/-! ## Frame observations (core/stream.py `AudioFrame`, feature level) -/

/-- Feature-level view of `AudioFrame` (core/stream.py): the VAD analyzer
reads a frame only through `frame.rms` (via `energy_db = 20·log10(rms+1e-10)`)
and the zero-crossing rate of its samples. `energy_db = -200` is the silent
(all-zero) frame; `energy_db = -20, zcr = 0` is realized e.g. by a constant
buffer of amplitude `0.1 - 1e-10`. -/
structure FrameObs where
  frame_id : ℕ
  timestamp_ms : ℤ
  energy_db : ℚ
  zcr : ℚ
  deriving DecidableEq, Repr

/-! ## VAD analyzer (analyzers/vad.py) -/

/-- Constructor parameters of `VADAnalyzer.__init__` (analyzers/vad.py). -/
structure VADParams where
  energy_threshold_db : ℚ := -40
  hangover_frames : ℕ := 5
  adaptive : Bool := true
  deriving DecidableEq, Repr

/-- Internal mutable state of `VADAnalyzer` (analyzers/vad.py lines 55-58):
noise floor initialized at -60 dB, hangover counter, speech-active flag and
frame counter. -/
structure VADState where
  noise_floor_db : ℚ := -60
  hangover_counter : ℕ := 0
  speech_active : Bool := false
  frame_count : ℕ := 0
  deriving DecidableEq, Repr

/-- `VADAnalyzer._update_noise_floor`: exponential smoothing with
`alpha = 0.01` when `energy_db < noise_floor + 5`, else `0.001`. -/
def updateNoiseFloor (nf energy_db : ℚ) : ℚ :=
  let alpha : ℚ := if energy_db < nf + 5 then 1/100 else 1/1000
  (1 - alpha) * nf + alpha * energy_db

/-- `VADAnalyzer._calculate_speech_probability` (analyzers/vad.py lines
127-143), translated verbatim: note the early `return 0.0` when
`energy_db < threshold - 20`, which drops the ZCR term. -/
def calcSpeechProbability (energy_db zcr threshold : ℚ) : ℚ :=
  if energy_db < threshold - 20 then 0
  else
    let energy_prob : ℚ := if energy_db > threshold + 10 then 1 else (energy_db - (threshold - 20)) / 30
    let zcr_prob : ℚ := max 0 (1 - zcr * 2)
    min 1 (energy_prob * (7/10) + zcr_prob * (3/10))

/-- Payload published by the VAD analyzer into `state.analysis_results`
(the `data` dict built in `VADAnalyzer.analyze`). -/
structure VADData where
  is_speech : Bool
  speech_probability : ℚ
  energy_db : ℚ
  threshold_db : ℚ
  noise_floor_db : ℚ
  deriving DecidableEq, Repr

/-- `VADAnalyzer.analyze` (analyzers/vad.py lines 64-112): update the frame
counter, optionally adapt the noise floor, compute the effective threshold,
run the hangover state machine on the raw speech decision, and publish the
result. -/
def vadAnalyze (p : VADParams) (f : FrameObs) (s : VADState) : VADState × VADData :=
  let s := { s with frame_count := s.frame_count + 1 }
  let s := if p.adaptive then { s with noise_floor_db := updateNoiseFloor s.noise_floor_db f.energy_db } else s
  let threshold := max p.energy_threshold_db (s.noise_floor_db + 10)
  let raw_speech : Bool := decide (f.energy_db > threshold) && decide (f.zcr < 1/2)
  let s :=
    if raw_speech then { s with hangover_counter := p.hangover_frames, speech_active := true }
    else if s.hangover_counter > 0 then { s with hangover_counter := s.hangover_counter - 1 }
    else { s with speech_active := false }
  let prob := calcSpeechProbability f.energy_db f.zcr threshold
  (s, { is_speech := s.speech_active
        speech_probability := prob
        energy_db := f.energy_db
        threshold_db := threshold
        noise_floor_db := s.noise_floor_db })

/-- `VADAnalyzer.reset` (analyzers/vad.py lines 145-149). -/
def vadReset (_ : VADState) : VADState :=
  { noise_floor_db := -60, hangover_counter := 0, speech_active := false, frame_count := 0 }

/-! ## Spec-side speech-probability formula (spec §4.2, claim C5) -/

/-- Piecewise-linear energy term as the spec words it: 0 below
`threshold - 20`, 1 above `threshold + 10`, linear in between. -/
def specEnergyTerm (energy_db threshold : ℚ) : ℚ :=
  if energy_db < threshold - 20 then 0
  else if energy_db > threshold + 10 then 1
  else (energy_db - (threshold - 20)) / 30

/-- Inverse-ZCR term as the spec words it: `max(0, 1 - 2·zcr)`. -/
def specZcrTerm (zcr : ℚ) : ℚ :=
  max 0 (1 - 2 * zcr)

/-- Speech probability as claim C5 states it: the 0.7/0.3 weighted fusion of
the two terms, clamped to at most 1. -/
def specSpeechProbability (energy_db zcr threshold : ℚ) : ℚ :=
  min 1 ((7/10) * specEnergyTerm energy_db threshold + (3/10) * specZcrTerm zcr)

/-! ## Timing predictor (predictors/timing.py) -/

/-- Intonation flags read out of the prosody analyzer's published data
(`is_rising_intonation` / `is_falling_intonation`). -/
structure PFlags where
  rising : Bool
  falling : Bool
  deriving DecidableEq, Repr

/-- Per-frame inputs of `TimingPredictor.predict`: the frame timestamp, the
VAD verdict (`analysis_results["vad"].data["is_speech"]`, `false` when the
entry is absent), and the prosody entry when present. -/
structure TimingInput where
  timestamp_ms : ℤ
  is_speech : Bool
  prosody : Option PFlags
  deriving DecidableEq, Repr

/-- Constructor parameters of `TimingPredictor.__init__`. -/
structure TimingParams where
  pause_threshold_ms : ℤ := 300
  turn_end_threshold_ms : ℤ := 700
  interrupt_confidence : ℚ := 3/5
  deriving DecidableEq, Repr

/-- Internal mutable state of `TimingPredictor` (predictors/timing.py lines
57-59). -/
structure TimingState where
  silence_start_ms : Option ℤ := none
  last_speech_ms : ℤ := 0
  speech_likelihood : ℚ := 0
  deriving DecidableEq, Repr

/-- `Timing` (core/packet.py lines 51-68). -/
structure Timing where
  user_paused : Bool
  interrupt_safe : Bool
  speech_likelihood : ℚ
  silence_duration_ms : ℤ
  deriving DecidableEq, Repr

/-- `Timing.__post_init__` clamps `speech_likelihood` into `[0, 1]`. -/
def mkTiming (paused safe : Bool) (likelihood : ℚ) (silence : ℤ) : Timing :=
  { user_paused := paused
    interrupt_safe := safe
    speech_likelihood := max 0 (min 1 likelihood)
    silence_duration_ms := silence }

/-- `TimingPredictor._update_speech_likelihood` (predictors/timing.py lines
112-131): piecewise decay by silence duration, then a `+0.1` bump capped at
1 when the prosody entry reports rising intonation. -/
def updateSpeechLikelihood (st : TimingState) (timestamp : ℤ) (prosody : Option PFlags) :
    TimingState :=
  match st.silence_start_ms with
  | none => st
  | some start =>
    let silence := timestamp - start
    let decay : ℚ := if silence < 200 then 19/20 else if silence < 500 then 17/20 else 7/10
    let L := st.speech_likelihood * decay
    let L := if (prosody.map (·.rising)).getD false then min 1 (L + 1/10) else L
    { st with speech_likelihood := L }

/-- State update of `TimingPredictor.predict` (predictors/timing.py lines
75-83): a speech frame resets everything; a non-speech frame opens the
silence window if unset and decays the likelihood. -/
def timingStateStep (st : TimingState) (inp : TimingInput) : TimingState :=
  if inp.is_speech then
    { st with last_speech_ms := inp.timestamp_ms
              silence_start_ms := none
              speech_likelihood := 1 }
  else
    let st :=
      if st.silence_start_ms = none then { st with silence_start_ms := some inp.timestamp_ms }
      else st
    updateSpeechLikelihood st inp.timestamp_ms inp.prosody

/-- Derived silence duration (predictors/timing.py lines 85-87): 0 when the
silence window is unset. -/
def silenceDurationOf (st : TimingState) (now : ℤ) : ℤ :=
  match st.silence_start_ms with
  | some start => now - start
  | none => 0

/-- `TimingPredictor._calculate_interrupt_safety` (predictors/timing.py
lines 133-161), translated clause by clause. -/
def calcInterruptSafety (p : TimingParams) (speech_likelihood : ℚ) (user_paused : Bool)
    (silence_duration : ℤ) (is_falling is_rising : Bool) (intent_confidence : ℚ) : Bool :=
  if is_rising then false
  else if speech_likelihood > 7/10 then false
  else if user_paused = false then false
  else if silence_duration ≥ p.turn_end_threshold_ms then true
  else if is_falling = true ∧ silence_duration ≥ p.pause_threshold_ms then true
  else if intent_confidence ≥ p.interrupt_confidence ∧ user_paused = true then true
  else false

/-- `TimingPredictor.predict` (predictors/timing.py lines 65-110): update the
internal state, derive silence duration and `user_paused`, compute
`interrupt_safe`, and write a `Timing` into `state.timing`. The returned
`Timing` is the value written; `state.speech_active := true` on speech
frames is applied by the pipeline embedding. -/
def timingPredict (p : TimingParams) (st : TimingState) (inp : TimingInput)
    (intent_confidence : ℚ) : TimingState × Timing :=
  let st' := timingStateStep st inp
  let silence := silenceDurationOf st' inp.timestamp_ms
  let paused : Bool := decide (silence ≥ p.pause_threshold_ms)
  let rising := (inp.prosody.map (·.rising)).getD false
  let falling := (inp.prosody.map (·.falling)).getD false
  let safe := calcInterruptSafety p st'.speech_likelihood paused silence falling rising
    intent_confidence
  (st', mkTiming paused safe st'.speech_likelihood silence)

/-- `TimingPredictor.reset` (predictors/timing.py lines 163-166). -/
def timingReset (_ : TimingState) : TimingState :=
  { silence_start_ms := none, last_speech_ms := 0, speech_likelihood := 0 }

/-- Driver folding `TimingPredictor.predict` over a frame sequence,
collecting the `Timing` values written into `state.timing` (each input is
paired with the `state.intent_confidence` visible at that frame). -/
def timingRun (p : TimingParams) (st : TimingState) (inps : List (TimingInput × ℚ)) :
    TimingState × List Timing :=
  inps.foldl
    (fun acc i =>
      let r := timingPredict p acc.1 i.1 i.2
      (r.1, acc.2 ++ [r.2]))
    (st, [])

/-! ## Turn-taking predictor (predictors/overlap.py) -/

/-- `TurnState` (predictors/overlap.py lines 24-30). -/
inductive TurnState where
  | user_speaking
  | user_pausing
  | turn_yielded
  | system_can_speak
  | overlap_detected
  deriving DecidableEq, Repr

/-- `InterruptReason` (predictors/overlap.py lines 33-41): enum members with
their serialized string values. -/
inductive InterruptReason where
  | speaking
  | rising_intonation
  | short_pause
  | falling_complete
  | long_silence
  | high_confidence
  | forced
  deriving DecidableEq, Repr

/-- String value of each `InterruptReason` member, as published by
`TurnTakingSignal.to_dict` via `interrupt_reason.value`. Note
`LONG_SILENCE = "extended_silence"`. -/
def InterruptReason.value : InterruptReason → String
  | .speaking => "user_still_speaking"
  | .rising_intonation => "question_forming"
  | .short_pause => "pause_too_short"
  | .falling_complete => "falling_intonation_complete"
  | .long_silence => "extended_silence"
  | .high_confidence => "high_intent_confidence"
  | .forced => "forced_by_system"

/-- Constructor parameters of `TurnTakingPredictor.__init__`. -/
structure TTParams where
  min_turn_gap_ms : ℤ := 200
  safe_interrupt_gap_ms : ℤ := 500
  max_wait_ms : ℤ := 2000
  deriving DecidableEq, Repr

/-- `TurnTakingPredictor._determine_turn_state` (predictors/overlap.py lines
161-189), translated branch by branch: `prosody_falling` is the
`is_falling_intonation` flag of the prosody entry, `none` when the entry is
absent. -/
def determineTurnState (p : TTParams) (timestamp last_speech_ms : ℤ) (is_speech : Bool)
    (prosody_falling : Option Bool) : TurnState :=
  if is_speech then .user_speaking
  else
    let silence := if last_speech_ms > 0 then timestamp - last_speech_ms else 0
    if silence < p.min_turn_gap_ms then .user_speaking
    else if silence < p.safe_interrupt_gap_ms then .user_pausing
    else
      let is_falling := prosody_falling.getD false
      if is_falling = true ∨ silence > p.safe_interrupt_gap_ms then .turn_yielded
      else if silence > p.max_wait_ms then .system_can_speak
      else .user_pausing

/-- `TurnTakingPredictor._evaluate_interrupt` (predictors/overlap.py lines
239-266), translated rule by rule. -/
def evaluateInterrupt (p : TTParams) (silence_duration : ℤ) (is_rising is_falling : Bool)
    (intent_confidence : ℚ) : Bool × InterruptReason :=
  if silence_duration < p.min_turn_gap_ms then (false, .speaking)
  else if is_rising then (false, .rising_intonation)
  else if silence_duration < p.safe_interrupt_gap_ms ∧ is_falling = false then
    (false, .short_pause)
  else if is_falling = true ∧ silence_duration ≥ p.min_turn_gap_ms then
    (true, .falling_complete)
  else if silence_duration ≥ p.safe_interrupt_gap_ms then (true, .long_silence)
  else if intent_confidence > 7/10 then (true, .high_confidence)
  else (false, .short_pause)

/-- Interrupt decision as the spec's ordered first-match rule list words it
(spec §4.9, default parameters inlined), with the published string of rule 5
taken from the code's `InterruptReason.LONG_SILENCE` value
("extended_silence"), which is where claim C4 needs amending. -/
def specInterruptDecision (silence : ℤ) (rising falling : Bool) (conf : ℚ) : Bool × String :=
  if silence < 200 then (false, "user_still_speaking")
  else if rising then (false, "question_forming")
  else if silence < 500 ∧ falling = false then (false, "pause_too_short")
  else if falling = true ∧ silence ≥ 200 then (true, "falling_intonation_complete")
  else if silence ≥ 500 then (true, "extended_silence")
  else if conf > 7/10 then (true, "high_intent_confidence")
  else (false, "pause_too_short")

/-! ## Intent predictor (predictors/intent.py, core/packet.py `Intent`) -/

/-- `Intent` (core/packet.py lines 15-22). -/
inductive Intent where
  | play_music
  | translate
  | query
  | conversation
  | command
  | unknown
  deriving DecidableEq, Repr

/-- The `Intent` members in definition order, which is the insertion (and
hence iteration) order of the `_intent_scores` dict in `IntentPredictor`. -/
def Intent.all : List Intent :=
  [.play_music, .translate, .query, .conversation, .command, .unknown]

/-- Python `max(self._intent_scores, key=...)`: the first key attaining the
maximum score in iteration order (`max` replaces the running best only on a
strictly greater key). -/
def argmaxIntent (s : Intent → ℚ) : Intent :=
  Intent.all.foldl (fun best i => if s i > s best then i else best) .play_music

/-- `sum(self._intent_scores.values())`. -/
def totalScore (s : Intent → ℚ) : ℚ :=
  (Intent.all.map s).sum

/-- `IntentPredictor._get_best_intent` (predictors/intent.py lines 150-165):
`(unknown, 0)` when the total score is below 0.01; otherwise `(unknown,
raw·0.5)` when the best share is below 0.4, else `(best, share)`. -/
def getBestIntent (s : Intent → ℚ) : Intent × ℚ :=
  let total := totalScore s
  if total < 1/100 then (.unknown, 0)
  else
    let best := argmaxIntent s
    let confidence := s best / total
    let raw := min 1 (s best)
    if confidence < 2/5 then (.unknown, raw * (1/2))
    else (best, confidence)

/-- Selection as the spec (and claim C8) words it: `best = argmax(scores)`,
`share = best_score / Σscores`, `raw = min(1, best_score)`; output
`(unknown, 0)` if `Σscores < 0.01`, `(unknown, raw·0.5)` if `share < 0.4`,
else `(best, share)`. -/
def specSelection (s : Intent → ℚ) : Intent × ℚ :=
  let best := argmaxIntent s
  let best_score := s best
  let share := best_score / totalScore s
  let raw := min 1 best_score
  if totalScore s < 1/100 then (.unknown, 0)
  else if share < 2/5 then (.unknown, raw * (1/2))
  else (best, share)

/-! ## Prosody analyzer (analyzers/prosody.py) -/

/-- Feature-level view of a frame as consumed by `ProsodyAnalyzer.analyze`:
`rms` is `frame.rms`; `pitchEst` is the value `_estimate_pitch` returns on
this frame's samples (0 when the autocorrelation peak is rejected), and
`tempoEst` the value `_estimate_tempo` returns on the buffer at this frame —
both are sample-level DSP computations whose outputs no claim constrains,
so they are carried as frame attributes. -/
structure PFrame where
  timestamp_ms : ℤ
  rms : ℚ
  pitchEst : ℚ
  tempoEst : ℚ
  deriving DecidableEq, Repr

/-- Internal mutable state of `ProsodyAnalyzer` (analyzers/prosody.py lines
61-63). -/
structure ProsodyState where
  pitch_history : List ℚ := []
  last_speech_timestamp : ℤ := 0
  current_pause_start : Option ℤ := none
  deriving DecidableEq, Repr

/-- Payload published by the prosody analyzer (the `data` dict built in
`ProsodyAnalyzer.analyze`). -/
structure ProsodyData where
  pitch_hz : ℚ
  pitch_variance : ℚ
  tempo : ℚ
  pause_duration_ms : ℤ
  is_rising_intonation : Bool
  is_falling_intonation : Bool
  pitch_history_len : ℕ
  deriving DecidableEq, Repr

/-- Arithmetic mean (`np.mean`). -/
def listMean (l : List ℚ) : ℚ :=
  l.sum / l.length

/-- Population variance (`np.var`). -/
def listVar (l : List ℚ) : ℚ :=
  ((l.map fun x => (x - listMean l)^2).sum) / l.length

/-- Least-squares slope of `np.polyfit(range(n), ys, 1)`. -/
def polyfitSlope (ys : List ℚ) : ℚ :=
  let n : ℚ := ys.length
  let xs : List ℚ := (List.range ys.length).map fun i => (i : ℚ)
  let sx := xs.sum
  let sy := ys.sum
  let sxy := ((xs.zip ys).map fun p => p.1 * p.2).sum
  let sxx := (xs.map fun x => x^2).sum
  (n * sxy - sx * sy) / (n * sxx - sx^2)

/-- `ProsodyAnalyzer._detect_intonation` (analyzers/prosody.py lines
153-162): slope of the last five history entries against a ±5 threshold. -/
def detectIntonation (hist : List ℚ) : Bool × Bool :=
  if hist.length < 5 then (false, false)
  else
    let slope := polyfitSlope (hist.drop (hist.length - 5))
    (decide (slope > 5), decide (slope < -5))

/-- `ProsodyAnalyzer._track_pauses` (analyzers/prosody.py lines 164-176),
returning the new state and the reported `pause_duration_ms`. -/
def trackPauses (st : ProsodyState) (timestamp_ms : ℤ) (is_speech : Bool) :
    ProsodyState × ℤ :=
  if is_speech then
    match st.current_pause_start with
    | some start => ({ st with current_pause_start := none }, timestamp_ms - start)
    | none => ({ st with last_speech_timestamp := timestamp_ms }, 0)
  else
    match st.current_pause_start with
    | some start => (st, timestamp_ms - start)
    | none => ({ st with current_pause_start := some timestamp_ms }, 0)

/-- `ProsodyAnalyzer.analyze` (analyzers/prosody.py lines 69-115):
`vad_is_speech` models `state.analysis_results.get("vad")`, with `none` for
an absent entry, in which case the code defaults `is_speech` to `True`.
Pitch is estimated only when `is_speech` and `frame.rms > 0.01`; a positive
pitch is appended to the 25-entry bounded history. -/
def prosodyAnalyze (vad_is_speech : Option Bool) (f : PFrame) (st : ProsodyState) :
    ProsodyState × ProsodyData :=
  let is_speech := vad_is_speech.getD true
  let pitch_hz := if is_speech = true ∧ f.rms > 1/100 then f.pitchEst else 0
  let hist :=
    if pitch_hz > 0 then
      let h := st.pitch_history ++ [pitch_hz]
      if h.length > 25 then h.tail else h
    else st.pitch_history
  let st := { st with pitch_history := hist }
  let pitch_variance := if hist.length > 2 then listVar hist else 0
  let io := detectIntonation hist
  let pr := trackPauses st f.timestamp_ms is_speech
  (pr.1,
   { pitch_hz := pitch_hz
     pitch_variance := pitch_variance
     tempo := f.tempoEst
     pause_duration_ms := pr.2
     is_rising_intonation := io.1
     is_falling_intonation := io.2
     pitch_history_len := hist.length })

/-- Driver folding `ProsodyAnalyzer.analyze` over a frame sequence with no
"vad" entry ever present in `state.analysis_results` (no VAD analyzer
registered, or the VAD analyzer never yet published), pairing each frame
with the published result. -/
def prosodyRunNoVad (fs : List PFrame) : ProsodyState × List (PFrame × ProsodyData) :=
  fs.foldl
    (fun acc f =>
      let r := prosodyAnalyze none f acc.1
      (r.1, acc.2 ++ [(f, r.2)]))
    ({}, [])

/-! ## Pipeline (core/pipeline.py) instantiated with the VAD analyzer and
the Timing predictor -/

/-- `Emotion` (core/packet.py lines 25-48); the pipeline below only carries
the default value along. -/
structure Emotion where
  arousal : ℚ := 1/2
  valence : ℚ := 1/2
  deriving DecidableEq, Repr

/-- `PipelineConfig` (core/pipeline.py lines 38-44), audio config omitted
(frame features are carried on the frames themselves). -/
structure PipelineConfig where
  buffer_duration_ms : ℤ := 1000
  emit_interval_ms : ℤ := 100
  min_confidence_to_emit : ℚ := 0
  deriving DecidableEq, Repr

/-- `PipelineState` (core/pipeline.py lines 47-59). For the concrete
pipeline below the `analysis_results` map holds at most the "vad" entry, so
it is carried as `vad_result`. The default `timing` is `Timing()` of
core/packet.py (speech_likelihood 1.0). -/
structure PipelineState where
  current_intent : Intent := .unknown
  intent_confidence : ℚ := 0
  language : String := "unknown"
  target_language : Option String := none
  emotion : Emotion := {}
  timing : Timing :=
    { user_paused := false, interrupt_safe := false
      speech_likelihood := 1, silence_duration_ms := 0 }
  last_speech_frame_id : ℕ := 0
  speech_active : Bool := false
  vad_result : Option VADData := none
  deriving DecidableEq, Repr

/-- `IntentPacket` (core/packet.py lines 71-95): exactly the fields the
dataclass declares. -/
structure IntentPacket where
  intent : Intent := .unknown
  confidence : ℚ := 0
  language : String := "unknown"
  target_language : Option String := none
  emotion : Emotion := {}
  timing : Timing :=
    { user_paused := false, interrupt_safe := false
      speech_likelihood := 1, silence_duration_ms := 0 }
  frame_id : ℕ := 0
  timestamp_ms : ℤ := 0
  deriving DecidableEq, Repr

/-- Parameter names accepted by the `IntentPacket` dataclass constructor
(core/packet.py lines 71-95: a `slots` dataclass accepts exactly its
declared fields as keywords). -/
def intentPacketFields : List String :=
  ["intent", "confidence", "language", "target_language", "emotion", "timing",
   "frame_id", "timestamp_ms"]

/-- Keyword arguments passed to `IntentPacket(...)` by
`PipelineState.to_packet` (core/pipeline.py lines 61-73). -/
def toPacketKwargs : List String :=
  ["intent", "confidence", "language", "target_language", "emotion", "timing",
   "frame_id", "timestamp_ms", "analysis_results"]

/-- `PipelineState.to_packet` (core/pipeline.py lines 61-73) restricted to
the fields the `IntentPacket` dataclass declares, with the
`__post_init__` confidence clamp; the call site also passes the undeclared
keyword `analysis_results` (see `toPacketKwargs` and claim C1). -/
def PipelineState.to_packet (st : PipelineState) (frame_id : ℕ) (timestamp_ms : ℤ) :
    IntentPacket :=
  { intent := st.current_intent
    confidence := max 0 (min 1 st.intent_confidence)
    language := st.language
    target_language := st.target_language
    emotion := st.emotion
    timing := st.timing
    frame_id := frame_id
    timestamp_ms := timestamp_ms }

/-- Front eviction loop of `FrameBuffer._evict` (core/stream.py lines
136-139): drop frames from the front while the span to the newest frame
exceeds the duration cap. -/
def dropWhileFront (latest max_duration_ms : ℤ) : List FrameObs → List FrameObs
  | [] => []
  | f :: rest =>
      if latest - f.timestamp_ms > max_duration_ms then dropWhileFront latest max_duration_ms rest
      else f :: rest

/-- `FrameBuffer.push` (core/stream.py lines 126-139): append, then evict by
count (cap 50) and by time span. -/
def bufferPush (max_duration_ms : ℤ) (f : FrameObs) (buf : List FrameObs) : List FrameObs :=
  let b := buf ++ [f]
  let b := if b.length > 50 then b.drop (b.length - 50) else b
  if b.length > 1 then dropWhileFront f.timestamp_ms max_duration_ms b else b

/-- A pipeline holding the VAD analyzer and the Timing predictor (the
configuration of `test_process_silence` in tests/test_pipeline.py): the
`FrameBuffer`, shared `PipelineState`, both components' internal state and
the emit clock of `Pipeline.__init__`. -/
structure VTPipeline where
  cfg : PipelineConfig := {}
  vadParams : VADParams := {}
  timingParams : TimingParams := {}
  buffer : List FrameObs := []
  state : PipelineState := {}
  vadState : VADState := {}
  timingState : TimingState := {}
  last_emit_ms : ℤ := 0
  deriving DecidableEq, Repr

/-- `Pipeline.process_frame` (core/pipeline.py lines 125-165) for the
VAD+Timing pipeline: push the frame, run the analyzer and publish its
result, run the predictor (which reads the published "vad" entry, takes the
absent "prosody" entry as `none`, writes `state.timing` and sets
`state.speech_active` on speech frames), then apply the emit gate. The
embedded emit returns the packet `to_packet` builds from its declared
fields; in the Python source this very call raises a `TypeError` because of
the undeclared `analysis_results` keyword — claim C1. -/
def VTPipeline.processFrame (p : VTPipeline) (f : FrameObs) :
    VTPipeline × Option IntentPacket :=
  let buffer := bufferPush p.cfg.buffer_duration_ms f p.buffer
  let va := vadAnalyze p.vadParams f p.vadState
  let state1 := { p.state with vad_result := some va.2 }
  let is_speech := (state1.vad_result.map (·.is_speech)).getD false
  let tp := timingPredict p.timingParams p.timingState
    ⟨f.timestamp_ms, is_speech, none⟩ state1.intent_confidence
  let state2 :=
    { state1 with
        timing := tp.2
        speech_active := if is_speech then true else state1.speech_active }
  if f.timestamp_ms - p.last_emit_ms ≥ p.cfg.emit_interval_ms ∧
      state2.intent_confidence ≥ p.cfg.min_confidence_to_emit then
    ({ p with
        buffer := buffer
        state := state2
        vadState := va.1
        timingState := tp.1
        last_emit_ms := f.timestamp_ms },
     some (state2.to_packet f.frame_id f.timestamp_ms))
  else
    ({ p with
        buffer := buffer
        state := state2
        vadState := va.1
        timingState := tp.1 },
     none)

/-- `Pipeline.run_sync` over a finite frame list: fold `process_frame`,
collecting the emitted packets in order. -/
def VTPipeline.runFrames (p : VTPipeline) (fs : List FrameObs) :
    VTPipeline × List IntentPacket :=
  fs.foldl
    (fun acc f =>
      let r := acc.1.processFrame f
      (r.1, match r.2 with
            | some pkt => acc.2 ++ [pkt]
            | none => acc.2))
    (p, [])

/-- `Pipeline.reset` (core/pipeline.py lines 236-240): clears the buffer,
replaces the shared state, and zeroes the emit clock — and nothing else; the
analyzers' and predictors' internal state is left untouched. -/
def VTPipeline.codeReset (p : VTPipeline) : VTPipeline :=
  { p with buffer := [], state := {}, last_emit_ms := 0 }

/-- `Pipeline.reset` followed by each registered component's own `reset()`
(`VADAnalyzer.reset` and `TimingPredictor.reset`). -/
def VTPipeline.fullReset (p : VTPipeline) : VTPipeline :=
  { p.codeReset with
      vadState := vadReset p.vadState
      timingState := timingReset p.timingState }

/-- A freshly constructed pipeline with the same configuration and component
parameters. -/
def VTPipeline.freshLike (p : VTPipeline) : VTPipeline :=
  { cfg := p.cfg, vadParams := p.vadParams, timingParams := p.timingParams }

/-! ## Generic component loops of `process_frame` (core/pipeline.py lines
134-152), for fault tolerance -/

/-- Python dict assignment `results[name] = r`: overwrite in place when the
key exists, else append. -/
def dictInsert {ρ : Type} : List (String × ρ) → String → ρ → List (String × ρ)
  | [], nm, r => [(nm, r)]
  | (k, v) :: rest, nm, r =>
      if k = nm then (nm, r) :: rest else (k, v) :: dictInsert rest nm r

/-- Python dict lookup `results.get(name)`. -/
def dictGet {ρ : Type} : List (String × ρ) → String → Option ρ
  | [], _ => none
  | (k, v) :: rest, nm => if k = nm then some v else dictGet rest nm

/-- The analyzer loop of `process_frame` (core/pipeline.py lines 134-139):
each analyzer is a named fallible function of the frame and the current
results map (`none` models `analyze` raising, which the `try/except` logs
and swallows); on success the result is published under the analyzer's
name, on a fault nothing is written and the loop continues. -/
def runAnalyzerPass {ρ : Type} (f : FrameObs)
    (as : List (String × (FrameObs → List (String × ρ) → Option ρ)))
    (res : List (String × ρ)) : List (String × ρ) :=
  as.foldl
    (fun res a =>
      match a.2 f res with
      | some r => dictInsert res a.1 r
      | none => res)
    res

/-- The predictor loop of `process_frame` (core/pipeline.py lines 148-152):
each predictor is a named fallible transformer of the shared state (`none`
models `predict` raising); a fault leaves the state as it was and the loop
continues. -/
def runPredictorPass {σ : Type} (f : FrameObs)
    (ps : List (String × (FrameObs → σ → Option σ))) (st : σ) : σ :=
  ps.foldl
    (fun st p =>
      match p.2 f st with
      | some st' => st'
      | none => st)
    st

end TalkyTalk

namespace TalkyTalk

/-- Claim C5, counterexample: at `energy_db = -100`, `zcr = 0`,
`threshold = -40` (a silent frame against the default threshold), the code
returns 0 while the claimed fused formula gives `0.3·(1 - 2·0) = 0.3`. -/
theorem claim_C5_counterexample :
    calcSpeechProbability (-100) 0 (-40) = 0 ∧
    specSpeechProbability (-100) 0 (-40) = 3/10 ∧
    calcSpeechProbability (-100) 0 (-40) ≠ specSpeechProbability (-100) 0 (-40) := by
  refine ⟨?_, ?_, ?_⟩ <;>
    norm_num [calcSpeechProbability, specSpeechProbability, specEnergyTerm, specZcrTerm]

/-- Claim C5 as amended: the published speech probability equals the spec's
fused formula except that when `energy_db < threshold - 20` the code returns
0 outright, dropping the ZCR term. -/
theorem claim_C5 (energy_db zcr threshold : ℚ) :
    calcSpeechProbability energy_db zcr threshold =
      if energy_db < threshold - 20 then 0
      else specSpeechProbability energy_db zcr threshold := by
  unfold calcSpeechProbability specSpeechProbability specEnergyTerm specZcrTerm
  by_cases h1 : energy_db < threshold - 20
  · simp [h1]
  · by_cases h2 : energy_db > threshold + 10
    · simp [h1, h2]
      ring_nf
    · simp [h1, h2]
      ring_nf

/-- The `Timing` constructor clamp does not move a value across the 0.7
threshold read by `_calculate_interrupt_safety`. -/
theorem clamp_le_seven_tenths_iff (L : ℚ) : max 0 (min 1 L) ≤ 7/10 ↔ L ≤ 7/10 := by
  rw [max_le_iff, min_le_iff]
  norm_num

/-- Clause-by-clause characterization of `_calculate_interrupt_safety`
(predictors/timing.py lines 133-161) as a single conjunction. -/
theorem calcInterruptSafety_eq_true_iff (p : TimingParams) (L : ℚ) (paused : Bool)
    (silence : ℤ) (falling rising : Bool) (conf : ℚ) :
    calcInterruptSafety p L paused silence falling rising conf = true ↔
      (rising = false ∧ L ≤ 7/10 ∧ paused = true ∧
        (silence ≥ p.turn_end_threshold_ms ∨
         (falling = true ∧ silence ≥ p.pause_threshold_ms) ∨
         conf ≥ p.interrupt_confidence)) := by
  unfold calcInterruptSafety
  cases rising <;> cases paused <;> cases falling <;> split_ifs <;> simp_all

/-- Claim C7: the `interrupt_safe` flag the timing predictor writes into
`state.timing` is true exactly when intonation is not rising, the (written)
speech likelihood is at most 0.7, `user_paused` holds, and at least one of
the three closing conditions holds (defaults 700 ms / 300 ms / 0.6). -/
theorem claim_C7 (st : TimingState) (inp : TimingInput) (conf : ℚ) :
    ((timingPredict {} st inp conf).2).interrupt_safe = true ↔
      ((inp.prosody.map (·.rising)).getD false = false ∧
       ((timingPredict {} st inp conf).2).speech_likelihood ≤ 7/10 ∧
       ((timingPredict {} st inp conf).2).user_paused = true ∧
       (((timingPredict {} st inp conf).2).silence_duration_ms ≥ 700 ∨
        ((inp.prosody.map (·.falling)).getD false = true ∧
         ((timingPredict {} st inp conf).2).silence_duration_ms ≥ 300) ∨
        conf ≥ 3/5)) := by
  simp only [timingPredict, mkTiming]
  rw [calcInterruptSafety_eq_true_iff]
  rw [clamp_le_seven_tenths_iff]

/-- Claim C6, counterexample: a speech frame, then two consecutive
non-speech frames, the second reporting rising intonation (realizable: the
prosody pitch history persists through silence, so `_detect_intonation` can
keep reporting a rising slope on non-speech frames). The written
`speech_likelihood` values are `1, 19/20, 1`: the value on the third frame
exceeds the value on the second although both are non-speech, refuting
monotone non-increase within a silence run. -/
theorem claim_C6_counterexample :
    ((timingRun {} {}
        [(⟨0, true, none⟩, 0),
         (⟨20, false, some ⟨false, false⟩⟩, 0),
         (⟨40, false, some ⟨true, false⟩⟩, 0)]).2.map (fun t => t.speech_likelihood)
      = [1, 19/20, 1]) ∧ (19/20 : ℚ) < 1 := by
  constructor
  · simp [timingRun, timingPredict, timingStateStep, updateSpeechLikelihood,
      silenceDurationOf, mkTiming, calcInterruptSafety, List.foldl, min_def, max_def]
    norm_num
  · norm_num

/-- Claim C6 as amended: across a non-speech frame on which prosody does not
report rising intonation, the likelihood kept by the timing predictor does
not increase (and stays non-negative), so the `speech_likelihood` written
into `state.timing` is monotonically non-increasing along any run of
consecutive non-speech frames that contains no rising-intonation report. -/
theorem claim_C6 (p : TimingParams) (st : TimingState) (inp : TimingInput) (conf : ℚ)
    (h0 : 0 ≤ st.speech_likelihood)
    (hs : inp.is_speech = false)
    (hr : (inp.prosody.map (·.rising)).getD false = false) :
    (timingStateStep st inp).speech_likelihood ≤ st.speech_likelihood ∧
    0 ≤ (timingStateStep st inp).speech_likelihood ∧
    ((timingPredict p st inp conf).2).speech_likelihood ≤
      max 0 (min 1 st.speech_likelihood) := by
  have key : (timingStateStep st inp).speech_likelihood ≤ st.speech_likelihood ∧
      0 ≤ (timingStateStep st inp).speech_likelihood := by
    obtain ⟨sst, lsm, L⟩ := st
    simp only [TimingState.speech_likelihood] at h0 ⊢
    have hstep : ∀ d : ℚ, d = 19/20 ∨ d = 17/20 ∨ d = 7/10 → L * d ≤ L ∧ 0 ≤ L * d := by
      rintro d (rfl | rfl | rfl) <;>
        exact ⟨mul_le_of_le_one_right h0 (by norm_num), mul_nonneg h0 (by norm_num)⟩
    cases sst with
    | none =>
        simp [timingStateStep, hs, updateSpeechLikelihood, hr]
        exact ⟨(hstep _ (by tauto)).1, h0⟩
    | some start =>
        simp [timingStateStep, hs, updateSpeechLikelihood, hr]
        split_ifs <;> refine ⟨(hstep _ (by tauto)).1, ?_⟩ <;>
          first
            | exact h0
            | exact (hstep _ (by tauto)).2
  refine ⟨key.1, key.2, ?_⟩
  simp only [timingPredict, mkTiming]
  exact max_le_max le_rfl (min_le_min le_rfl key.1)

/-- Claim C3: with the default parameters `safe_interrupt_gap_ms = 500` and
`max_wait_ms = 2000`, the branch `silence > max_wait_ms →
system_can_speak` of `_determine_turn_state` is shadowed by the preceding
`silence > safe_interrupt_gap_ms → turn_yielded` branch, so
`system_can_speak` is unreachable for every input; in particular a
non-speech frame with silence 2100 ms > `max_wait_ms` yields
`turn_yielded`, not `system_can_speak`. -/
theorem claim_C3 :
    (∀ (timestamp last_speech_ms : ℤ) (is_speech : Bool) (prosody_falling : Option Bool),
      determineTurnState {} timestamp last_speech_ms is_speech prosody_falling ≠
        TurnState.system_can_speak) ∧
    determineTurnState {} 2200 100 false (some false) = TurnState.turn_yielded := by
  constructor
  · intro ts last sp pf
    unfold determineTurnState
    split_ifs <;> try simp
    all_goals (split_ifs <;> try simp)
    all_goals (rename_i hor hmax; rw [not_or] at hor; exfalso; omega)
  · norm_num [determineTurnState]

/-- Claim C4, counterexample: at 600 ms of silence with no rising or falling
intonation (rules 1-4 fail, rule 5 fires) the decision is `can_interrupt =
true`, but the published `interrupt_reason` string is "extended_silence"
(the value of the `LONG_SILENCE` enum member), not "long_silence" as the
claim states. -/
theorem claim_C4_counterexample :
    (evaluateInterrupt {} 600 false false 0).1 = true ∧
    (evaluateInterrupt {} 600 false false 0).2 = InterruptReason.long_silence ∧
    ((evaluateInterrupt {} 600 false false 0).2).value = "extended_silence" ∧
    ((evaluateInterrupt {} 600 false false 0).2).value ≠ "long_silence" := by
  refine ⟨?_, ?_, ?_, ?_⟩ <;>
    (norm_num [evaluateInterrupt, InterruptReason.value]; try decide)

/-- Claim C4 as amended: with default parameters, the interrupt decision
equals the spec's ordered first-match rule list for every input, with the
rule-5 string corrected from "long_silence" to "extended_silence" (the
serialized value of `InterruptReason.LONG_SILENCE`). -/
theorem claim_C4 (silence : ℤ) (rising falling : Bool) (conf : ℚ) :
    ((evaluateInterrupt {} silence rising falling conf).1,
     ((evaluateInterrupt {} silence rising falling conf).2).value) =
      specInterruptDecision silence rising falling conf := by
  unfold evaluateInterrupt specInterruptDecision
  cases rising <;> cases falling <;>
    split_ifs <;> simp_all [InterruptReason.value]

/-- Every single score is bounded by the total when all scores are
non-negative. -/
theorem score_le_totalScore (s : Intent → ℚ) (h : ∀ i, 0 ≤ s i) (i : Intent) :
    s i ≤ totalScore s := by
  have h1 := h Intent.play_music
  have h2 := h Intent.translate
  have h3 := h Intent.query
  have h4 := h Intent.conversation
  have h5 := h Intent.command
  have h6 := h Intent.unknown
  cases i <;> simp [totalScore, Intent.all] <;> linarith

/-- Claim C8: for non-negative score vectors, `_get_best_intent` implements
exactly the spec's selection rule, and the confidence it returns (written
into `state.intent_confidence`) lies in `[0, 1]`. -/
theorem claim_C8 (s : Intent → ℚ) (h : ∀ i, 0 ≤ s i) :
    getBestIntent s = specSelection s ∧
    0 ≤ (getBestIntent s).2 ∧ (getBestIntent s).2 ≤ 1 := by
  refine ⟨rfl, ?_⟩
  simp only [getBestIntent]
  by_cases ht : totalScore s < 1/100
  · rw [if_pos ht]
    exact ⟨le_refl 0, by norm_num⟩
  · rw [if_neg ht]
    have h0t : 0 < totalScore s := lt_of_lt_of_le (by norm_num) (not_lt.mp ht)
    have hbest := score_le_totalScore s h (argmaxIntent s)
    by_cases hc : s (argmaxIntent s) / totalScore s < 2/5
    · rw [if_pos hc]
      dsimp only
      have hmin0 : (0:ℚ) ≤ min 1 (s (argmaxIntent s)) := le_min (by norm_num) (h _)
      have hmin1 : min 1 (s (argmaxIntent s)) ≤ 1 := min_le_left _ _
      constructor <;> linarith
    · rw [if_neg hc]
      dsimp only
      exact ⟨div_nonneg (h _) h0t.le, (div_le_one h0t).mpr hbest⟩

/-- Concrete instantiation of claim C8 at the uniform score vector 1/10:
total 0.6, share 1/6 < 0.4, so the output is `(unknown, 0.05)`, within
bounds. -/
theorem claim_C8_witness :
    getBestIntent (fun _ => 1/10) = specSelection (fun _ => 1/10) ∧
    0 ≤ (getBestIntent (fun _ => 1/10)).2 ∧ (getBestIntent (fun _ => 1/10)).2 ≤ 1 :=
  claim_C8 (fun _ => 1/10) (fun _ => by norm_num)

/-- One prosody step with no "vad" entry: the frame is treated as speech, so
no pause opens, the reported pause duration is 0, and pitch estimation runs
exactly when `frame.rms > 0.01`. -/
theorem prosody_step_noVad (f : PFrame) (st : ProsodyState)
    (hst : st.current_pause_start = none) :
    (prosodyAnalyze none f st).1.current_pause_start = none ∧
    (prosodyAnalyze none f st).2.pause_duration_ms = 0 ∧
    (prosodyAnalyze none f st).2.pitch_hz = (if f.rms > 1/100 then f.pitchEst else 0) := by
  simp only [prosodyAnalyze, trackPauses, Option.getD, hst, true_and]
  refine ⟨rfl, rfl, ?_⟩
  by_cases h : f.rms > 1/100 <;> simp [h]

/-- Invariant form of claim C10 over a run with accumulated outputs. -/
theorem prosody_noVad_invariant (fs : List PFrame) (st : ProsodyState)
    (acc : List (PFrame × ProsodyData))
    (hst : st.current_pause_start = none)
    (hacc : ∀ p ∈ acc, p.2.pause_duration_ms = 0 ∧
      p.2.pitch_hz = (if p.1.rms > 1/100 then p.1.pitchEst else 0)) :
    (fs.foldl
      (fun acc f =>
        let r := prosodyAnalyze none f acc.1
        (r.1, acc.2 ++ [(f, r.2)]))
      (st, acc)).1.current_pause_start = none ∧
    ∀ p ∈ (fs.foldl
      (fun acc f =>
        let r := prosodyAnalyze none f acc.1
        (r.1, acc.2 ++ [(f, r.2)]))
      (st, acc)).2,
      p.2.pause_duration_ms = 0 ∧
      p.2.pitch_hz = (if p.1.rms > 1/100 then p.1.pitchEst else 0) := by
  induction fs generalizing st acc with
  | nil => exact ⟨hst, hacc⟩
  | cons f fs ih =>
      have hstep := prosody_step_noVad f st hst
      refine ih (prosodyAnalyze none f st).1 (acc ++ [(f, (prosodyAnalyze none f st).2)])
        hstep.1 ?_
      intro p hp
      rcases List.mem_append.mp hp with h | h
      · exact hacc p h
      · rcases List.mem_singleton.mp h with rfl
        exact ⟨hstep.2.1, hstep.2.2⟩

/-- Claim C10: for every frame sequence processed while
`state.analysis_results` has no "vad" entry, the prosody analyzer treats
every frame as speech: no pause is ever opened, every reported
`pause_duration_ms` is 0, and pitch estimation runs exactly on the frames
with `rms > 0.01`. -/
theorem claim_C10 (fs : List PFrame) :
    (prosodyRunNoVad fs).1.current_pause_start = none ∧
    ∀ p ∈ (prosodyRunNoVad fs).2,
      p.2.pause_duration_ms = 0 ∧
      p.2.pitch_hz = (if p.1.rms > 1/100 then p.1.pitchEst else 0) :=
  prosody_noVad_invariant fs {} [] rfl (by simp)

/-- Concrete instantiation of claim C10: a single frame with `rms = 1/2` and
pitch estimate 150 Hz, processed with no "vad" entry, reports pause 0 and
pitch 150. -/
theorem claim_C10_witness :
    ∃ p ∈ (prosodyRunNoVad [⟨0, 1/2, 150, 0⟩]).2,
      p.2.pause_duration_ms = 0 ∧
      p.2.pitch_hz = (if p.1.rms > 1/100 then p.1.pitchEst else 0) := by
  obtain ⟨-, h2⟩ := claim_C10 [⟨0, 1/2, 150, 0⟩]
  refine ⟨((⟨0, 1/2, 150, 0⟩ : PFrame), (prosodyAnalyze none ⟨0, 1/2, 150, 0⟩ {}).2), ?_, ?_⟩
  · simp [prosodyRunNoVad]
  · exact h2 _ (by simp [prosodyRunNoVad])

/-- Claim C1: the emit gate of `process_frame` fires exactly when
`frame.timestamp_ms - last_emit_ms ≥ emit_interval_ms` and
`state.intent_confidence ≥ min_confidence_to_emit`; but on emit,
`to_packet` passes the keyword `analysis_results` that the slots-dataclass
`IntentPacket` does not declare, so the Python constructor raises
`TypeError` instead of returning the snapshot packet. -/
theorem claim_C1 :
    ("analysis_results" ∈ toPacketKwargs ∧ "analysis_results" ∉ intentPacketFields) ∧
    ∀ (p : VTPipeline) (f : FrameObs),
      ((p.processFrame f).2 ≠ none ↔
        (f.timestamp_ms - p.last_emit_ms ≥ p.cfg.emit_interval_ms ∧
         p.state.intent_confidence ≥ p.cfg.min_confidence_to_emit)) := by
  refine ⟨⟨by decide, by decide⟩, ?_⟩
  intro p f
  simp only [VTPipeline.processFrame]
  split_ifs <;> simp_all

/-- Claim C2, counterexample: a silent frame followed by a loud frame
(features realized by the all-zero buffer and a constant buffer of
amplitude `0.1 - 1e-10`), with `emit_interval_ms = 0` so every frame
emits. On the fresh pipeline the packets carry `speech_likelihood` 0 then
1; after `Pipeline.reset()` the VAD analyzer still holds its hangover
counter (5) and speech-active flag from the first run, so the silent frame
is published as speech and the replayed packets carry 1 then 1. The two
packet sequences differ, refuting replay determinism under `reset()`. -/
theorem claim_C2_counterexample :
    ((VTPipeline.runFrames { cfg := { emit_interval_ms := 0 } }
        [⟨0, 0, -200, 0⟩, ⟨1, 20, -20, 0⟩]).2.map
          (fun k => k.timing.speech_likelihood) = [0, 1]) ∧
    ((VTPipeline.runFrames
        ((VTPipeline.runFrames { cfg := { emit_interval_ms := 0 } }
          [⟨0, 0, -200, 0⟩, ⟨1, 20, -20, 0⟩]).1.codeReset)
        [⟨0, 0, -200, 0⟩, ⟨1, 20, -20, 0⟩]).2.map
          (fun k => k.timing.speech_likelihood) = [1, 1]) ∧
    (VTPipeline.runFrames { cfg := { emit_interval_ms := 0 } }
        [⟨0, 0, -200, 0⟩, ⟨1, 20, -20, 0⟩]).2 ≠
      (VTPipeline.runFrames
        ((VTPipeline.runFrames { cfg := { emit_interval_ms := 0 } }
          [⟨0, 0, -200, 0⟩, ⟨1, 20, -20, 0⟩]).1.codeReset)
        [⟨0, 0, -200, 0⟩, ⟨1, 20, -20, 0⟩]).2 := by
  have m1 : (VTPipeline.runFrames { cfg := { emit_interval_ms := 0 } }
      [⟨0, 0, -200, 0⟩, ⟨1, 20, -20, 0⟩]).2.map
        (fun k => k.timing.speech_likelihood) = [0, 1] := by
    norm_num [VTPipeline.runFrames, VTPipeline.processFrame, VTPipeline.codeReset,
      vadAnalyze, updateNoiseFloor, calcSpeechProbability, timingPredict, timingStateStep,
      updateSpeechLikelihood, silenceDurationOf, calcInterruptSafety, mkTiming,
      PipelineState.to_packet, bufferPush, dropWhileFront, List.foldl, min_def, max_def]
  have m2 : (VTPipeline.runFrames
      ((VTPipeline.runFrames { cfg := { emit_interval_ms := 0 } }
        [⟨0, 0, -200, 0⟩, ⟨1, 20, -20, 0⟩]).1.codeReset)
      [⟨0, 0, -200, 0⟩, ⟨1, 20, -20, 0⟩]).2.map
        (fun k => k.timing.speech_likelihood) = [1, 1] := by
    norm_num [VTPipeline.runFrames, VTPipeline.processFrame, VTPipeline.codeReset,
      vadAnalyze, updateNoiseFloor, calcSpeechProbability, timingPredict, timingStateStep,
      updateSpeechLikelihood, silenceDurationOf, calcInterruptSafety, mkTiming,
      PipelineState.to_packet, bufferPush, dropWhileFront, List.foldl, min_def, max_def]
  refine ⟨m1, m2, fun h => ?_⟩
  rw [h, m2] at m1
  exact absurd m1 (by norm_num)

/-- Claim C2 as amended: `Pipeline.reset()` followed by each registered
component's own `reset()` restores the freshly constructed pipeline, so the
replayed frame sequence then produces exactly the packets of the first run
from a fresh pipeline; `Pipeline.reset()` alone does not reset the
components' internal state. -/
theorem claim_C2 (p : VTPipeline) (fs : List FrameObs) :
    (p.fullReset.runFrames fs).2 = (p.freshLike.runFrames fs).2 := by
  have h : p.fullReset = p.freshLike := by
    cases p
    rfl
  rw [h]

/-- Overwriting one key leaves the lookup of a different key unchanged. -/
theorem dictGet_dictInsert_ne {ρ : Type} (res : List (String × ρ)) (k nm : String) (r : ρ)
    (h : k ≠ nm) : dictGet (dictInsert res k r) nm = dictGet res nm := by
  induction res with
  | nil => simp [dictInsert, dictGet, h]
  | cons kv rest ih =>
      obtain ⟨k', v⟩ := kv
      by_cases hk : k' = k
      · subst hk
        simp [dictInsert, dictGet, h]
      · simp only [dictInsert, if_neg hk]
        by_cases hnm : k' = nm <;> simp [dictGet, hnm, ih]

/-- An analyzer pass whose component names avoid `nm` leaves the entry under
`nm` unchanged. -/
theorem runAnalyzerPass_get_notin {ρ : Type} (f : FrameObs)
    (as : List (String × (FrameObs → List (String × ρ) → Option ρ)))
    (res : List (String × ρ)) (nm : String) (h : nm ∉ as.map Prod.fst) :
    dictGet (runAnalyzerPass f as res) nm = dictGet res nm := by
  induction as generalizing res with
  | nil => rfl
  | cons a rest ih =>
      simp only [List.map_cons, List.mem_cons, not_or] at h
      simp only [runAnalyzerPass, List.foldl_cons]
      rcases hr : a.2 f res with - | r
      · exact ih res h.2
      · exact (ih (dictInsert res a.1 r) h.2).trans
          (dictGet_dictInsert_ne res a.1 nm r (fun he => h.1 he.symm))

/-- Claim C9: a component raising on a frame does not escape the two loops of
`process_frame`: the loop over the remaining analyzers (resp. predictors)
still runs exactly as if the faulting component were absent, and the
previously published result under the faulting analyzer's (pipeline-unique)
name is left unchanged in `state.analysis_results`. -/
theorem claim_C9 {ρ σ : Type} (f : FrameObs)
    (pre post : List (String × (FrameObs → List (String × ρ) → Option ρ)))
    (nm : String) (g : FrameObs → List (String × ρ) → Option ρ)
    (res : List (String × ρ))
    (ps1 ps2 : List (String × (FrameObs → σ → Option σ)))
    (pnm : String) (pg : FrameObs → σ → Option σ) (st : σ)
    (hg : g f (runAnalyzerPass f pre res) = none)
    (hnm : nm ∉ (pre ++ post).map Prod.fst)
    (hpg : pg f (runPredictorPass f ps1 st) = none) :
    runAnalyzerPass f (pre ++ (nm, g) :: post) res =
      runAnalyzerPass f post (runAnalyzerPass f pre res) ∧
    dictGet (runAnalyzerPass f (pre ++ (nm, g) :: post) res) nm = dictGet res nm ∧
    runPredictorPass f (ps1 ++ (pnm, pg) :: ps2) st =
      runPredictorPass f ps2 (runPredictorPass f ps1 st) := by
  simp only [List.map_append, List.mem_append, not_or] at hnm
  have hg' : g f (List.foldl
      (fun res a =>
        match a.2 f res with
        | some r => dictInsert res a.1 r
        | none => res) res pre) = none := hg
  have hpg' : pg f (List.foldl
      (fun st p =>
        match p.2 f st with
        | some st' => st'
        | none => st) st ps1) = none := hpg
  have ha : runAnalyzerPass f (pre ++ (nm, g) :: post) res =
      runAnalyzerPass f post (runAnalyzerPass f pre res) := by
    simp only [runAnalyzerPass, List.foldl_append, List.foldl_cons, hg']
  refine ⟨ha, ?_, ?_⟩
  · rw [ha, runAnalyzerPass_get_notin f post _ nm hnm.2,
      runAnalyzerPass_get_notin f pre res nm hnm.1]
  · simp only [runPredictorPass, List.foldl_append, List.foldl_cons, hpg']

/-- Concrete instantiation of claim C9: analyzers `a`, a faulting `vad`, and
`b`; predictors: a faulting one then an incrementing `timing`. The results
map keeps the prior "vad" entry (5) while `a` and `b` still publish, and the
predictor loop still increments the state. -/
theorem claim_C9_witness :
    runAnalyzerPass (ρ := ℚ) ⟨0, 0, 0, 0⟩
        ([("a", fun _ _ => some 1)] ++ ("vad", fun _ _ => none) :: [("b", fun _ _ => some 2)])
        [("vad", 5)] =
      runAnalyzerPass ⟨0, 0, 0, 0⟩ [("b", fun _ _ => some 2)]
        (runAnalyzerPass ⟨0, 0, 0, 0⟩ [("a", fun _ _ => some 1)] [("vad", 5)]) ∧
    dictGet (runAnalyzerPass (ρ := ℚ) ⟨0, 0, 0, 0⟩
        ([("a", fun _ _ => some 1)] ++ ("vad", fun _ _ => none) :: [("b", fun _ _ => some 2)])
        [("vad", 5)]) "vad" = dictGet [("vad", 5)] "vad" ∧
    runPredictorPass (σ := ℚ) ⟨0, 0, 0, 0⟩
        ([] ++ ("bad", fun _ _ => none) :: [("timing", fun _ x => some (x + 1))]) 0 =
      runPredictorPass ⟨0, 0, 0, 0⟩ [("timing", fun _ x => some (x + 1))]
        (runPredictorPass ⟨0, 0, 0, 0⟩ [] 0) :=
  claim_C9 ⟨0, 0, 0, 0⟩ [("a", fun _ _ => some 1)] [("b", fun _ _ => some 2)] "vad"
    (fun _ _ => none) [("vad", 5)] [] [("timing", fun _ x => some (x + 1))] "bad"
    (fun _ _ => none) 0 rfl (by decide) rfl

/-- Concrete instantiation of the amended claim C6 theorem: one non-speech,
non-rising frame decays a likelihood of 1/2 without increasing it. -/
theorem claim_C6_witness :
    (timingStateStep ⟨some 0, 0, 1/2⟩ ⟨100, false, some ⟨false, false⟩⟩).speech_likelihood ≤
      (1/2 : ℚ) ∧
    0 ≤ (timingStateStep ⟨some 0, 0, 1/2⟩ ⟨100, false, some ⟨false, false⟩⟩).speech_likelihood ∧
    ((timingPredict {} ⟨some 0, 0, 1/2⟩ ⟨100, false, some ⟨false, false⟩⟩ 0).2).speech_likelihood ≤
      max 0 (min 1 (1/2 : ℚ)) :=
  claim_C6 {} ⟨some 0, 0, 1/2⟩ ⟨100, false, some ⟨false, false⟩⟩ 0 (by norm_num) rfl rfl

end TalkyTalk
